import Mathlib

/-!
Shallow embedding of the `marz619/ocean-simulation` repository
(`src/ocean.py` and the simulation driver of `src/main.py`) and proofs
about it.

Modelling conventions:
* Python `int` is `Int`; Python `%` with a positive divisor agrees with
  `Int.emod` (Lean's `%` on `Int`), both returning a value in `[0, m)`.
* The `OceanDict` (a `dict` with `__missing__` returning `EMPTY_CELL`)
  is an insertion-ordered association list; `dictInsert` replaces the
  value in place when the key is present (Python dict semantics).
* The per-ocean `random.Random` stream is a list of rationals in
  `[0, 1)`; `random()` pops the head.  Float thresholds `0.999` and
  `0.2` are the rationals `999/1000` and `1/5`.
* `hash(tuple-of-occupants)` is modelled by the occupant list itself
  (an injective stand-in for the opaque hash).
* The two lazy caches `_str` / `_hash` are `Option` fields.
-/

namespace OceanSim

/-- `Occupant` enum from `src/ocean.py`. -/
inductive Occupant : Type
  | EMPTY
  | SHARK
  | FISH
deriving DecidableEq, Repr

/-- `Cell` frozen dataclass: occupant kind plus feeding counter.
(The Python constructor rejects negative feeding; feeding stays `Int`
because `_apply_rules` computes `cell.feeding - 1` over Python ints.) -/
structure Cell : Type where
  occupant : Occupant
  feeding : Int
deriving DecidableEq, Repr

/-- The canonical empty cell constant `EMPTY_CELL = Cell(Occupant.EMPTY)`. -/
def EMPTY_CELL : Cell := ⟨Occupant.EMPTY, 0⟩

/-- Coordinates type alias. -/
abbrev Coordinates : Type := Int × Int

/-- The sparse ocean mapping: insertion-ordered key/value list. -/
abbrev OceanDict : Type := List (Coordinates × Cell)

/-- Python dict assignment `d[k] = v`: replace in place if the key is
present, otherwise append at the end. -/
def dictInsert : OceanDict → Coordinates → Cell → OceanDict
  | [], k, v => [(k, v)]
  | (k', v') :: rest, k, v =>
      if k' = k then (k, v) :: rest else (k', v') :: dictInsert rest k v

/-- Dict lookup with the `OceanDict.__missing__` default `EMPTY_CELL`. -/
def dictGet (d : OceanDict) (k : Coordinates) : Cell :=
  (List.lookup k d).getD EMPTY_CELL

/-- The `Ocean` class state: dimensions, sparse mapping, random stream,
and the two lazy caches (`_str`, `_hash`). -/
structure Ocean : Type where
  width : Int
  height : Int
  ocean : OceanDict
  rand : List ℚ
  strCache : Option String
  hashCache : Option (List Occupant)
deriving DecidableEq, Repr

/-- `Ocean.__init__(width, height)`: empty mapping, fresh stream, caches unset. -/
def Ocean.init (width height : Int) (rand : List ℚ) : Ocean :=
  ⟨width, height, [], rand, none, none⟩

/-- `Ocean._wrap_coords`: normalize modulo `(width, height)`. -/
def Ocean.wrap_coords (o : Ocean) (x y : Int) : Coordinates :=
  (x % o.width, y % o.height)

/-- `Ocean.__len__`: number of stored entries. -/
def Ocean.len (o : Ocean) : Nat := o.ocean.length

/-- `Ocean.__getitem__`: read the cell at the wrapped coordinate
(missing keys default to `EMPTY_CELL`). -/
def Ocean.getItem (o : Ocean) (x y : Int) : Cell :=
  dictGet o.ocean (o.wrap_coords x y)

/-- `Ocean.__setitem__`: write the cell at the wrapped coordinate and
clear the `_hash` cache.  (The source clears only `_hash`, not `_str`.) -/
def Ocean.setItem (o : Ocean) (x y : Int) (c : Cell) : Ocean :=
  { o with ocean := dictInsert o.ocean (o.wrap_coords x y) c, hashCache := none }

/-- `Ocean._add`: wrap, then write `Cell(occupant, feeding)` directly into
the inner dict (no cache is cleared by this path). -/
def Ocean.add (o : Ocean) (x y : Int) (occupant : Occupant) (feeding : Int) : Ocean :=
  { o with ocean := dictInsert o.ocean (o.wrap_coords x y) ⟨occupant, feeding⟩ }

/-- `Ocean.add_fish`. -/
def Ocean.add_fish (o : Ocean) (x y : Int) : Ocean :=
  o.add x y Occupant.FISH 0

/-- `Ocean.add_shark` (default feeding 0 in the source; passed explicitly). -/
def Ocean.add_shark (o : Ocean) (x y : Int) (feeding : Int) : Ocean :=
  o.add x y Occupant.SHARK feeding

/-- `Ocean.is_dead`: the stored mapping is empty. -/
def Ocean.is_dead (o : Ocean) : Bool := o.len = 0

/-- `Ocean.shark_feeding`: feeding of the shark at the wrapped coordinate,
0 when the cell holds no shark. -/
def Ocean.shark_feeding (o : Ocean) (x y : Int) : Int :=
  if (o.getItem x y).occupant = Occupant.SHARK then (o.getItem x y).feeding else 0

/-- `Ocean.cell_contents`. -/
def Ocean.cell_contents (o : Ocean) (x y : Int) : Occupant :=
  (o.getItem x y).occupant

/-- The 8 Moore offsets in the source's generation order
(`for i in range(-1, 2) for j in range(-1, 2) if (i, j) != (0, 0)`). -/
def mooreOffsets : List (Int × Int) :=
  [(-1, -1), (-1, 0), (-1, 1), (0, -1), (0, 1), (1, -1), (1, 0), (1, 1)]

/-- `Ocean._neighbours`: the 8 cells at the wrapped offset coordinates
(a list, i.e. a multiset of cells — wrapped coincidences are kept). -/
def Ocean.neighbours (o : Ocean) (x y : Int) : List Cell :=
  mooreOffsets.map fun p => o.getItem (x + p.1) (y + p.2)

/-- `Ocean.counts(cells).get(occupant, 0)`: how many cells in the list
carry the given occupant (`collections.Counter` lookup with default 0). -/
def Ocean.counts (cells : List Cell) (occupant : Occupant) : Nat :=
  (cells.filter fun c => c.occupant = occupant).length

/-- `Ocean.random`: pop the next draw off the grid's own random stream
(the stream never exhausts in Python; a missing tail reads as 0). -/
def randDraw (stream : List ℚ) : ℚ × List ℚ :=
  (stream.headD 0, stream.tail)

/-- `Ocean._spontaneous_life_emergence`, with the consuming of the
grid's random stream made explicit.  The source keeps an empty cell
unless the first draw exceeds `0.999`; on emergence a second draw
`≤ 0.2` gives `Cell(SHARK, starve_time)`, else `Cell(FISH)`. -/
def spontaneous_life_emergence (stream : List ℚ) (starve_time : Int) :
    Cell × List ℚ :=
  let d1 := randDraw stream
  if d1.1 ≤ 999 / 1000 then (EMPTY_CELL, d1.2)
  else
    let d2 := randDraw d1.2
    if d2.1 ≤ 1 / 5 then (⟨Occupant.SHARK, starve_time⟩, d2.2)
    else (⟨Occupant.FISH, 0⟩, d2.2)

/-- `Ocean._apply_rules`: the per-cell transition rule.  The current
cell is read straight from the inner dict (`self._ocean[(x, y)]`,
default `EMPTY_CELL`), the neighbour counts from the wrapped Moore
neighbourhood. -/
def Ocean.apply_rules (o : Ocean) (x y : Int) (starve_time : Int) : Cell :=
  let cell := dictGet o.ocean (x, y)
  let fishes := Ocean.counts (o.neighbours x y) Occupant.FISH
  let sharks := Ocean.counts (o.neighbours x y) Occupant.SHARK
  if cell.occupant = Occupant.SHARK then
    let feeding := if fishes ≠ 0 then starve_time else cell.feeding - 1
    if 0 < feeding then ⟨Occupant.SHARK, feeding⟩ else EMPTY_CELL
  else if cell.occupant = Occupant.FISH then
    if 1 < sharks then ⟨Occupant.SHARK, starve_time⟩ else ⟨Occupant.FISH, 0⟩
  else
    if sharks ≤ 1 ∧ 1 < fishes then ⟨Occupant.FISH, 0⟩
    else if 1 < sharks ∧ 1 < fishes then ⟨Occupant.SHARK, starve_time⟩
    else EMPTY_CELL

/-- The coordinate scan order of `time_step` and `__hash__`:
`product(range(width), range(height))`, x outer, y inner. -/
def Ocean.coordList (o : Ocean) : List (Int × Int) :=
  (List.range o.width.toNat).flatMap fun x =>
    (List.range o.height.toNat).map fun y => ((x : Int), (y : Int))

/-- One iteration of the `time_step` loop body: given the target dict
built so far and the source stream state, process coordinate `xy`. -/
def Ocean.stepCell (o : Ocean) (starve_time : Int)
    (acc : OceanDict × List ℚ) (xy : Int × Int) : OceanDict × List ℚ :=
  if o.getItem xy.1 xy.2 = EMPTY_CELL then
    let res := spontaneous_life_emergence acc.2 starve_time
    if res.1 ≠ EMPTY_CELL then (dictInsert acc.1 xy res.1, res.2)
    else
      let c := o.apply_rules xy.1 xy.2 starve_time
      (if c ≠ EMPTY_CELL then dictInsert acc.1 xy c else acc.1, res.2)
  else
    let c := o.apply_rules xy.1 xy.2 starve_time
    (if c ≠ EMPTY_CELL then dictInsert acc.1 xy c else acc.1, acc.2)

/-- `Ocean.time_step`: build the successor generation cell by cell,
threading the source grid's random stream; the new ocean starts with a
fresh (unseeded, here empty) stream and unset caches, and only
non-`EMPTY_CELL` results are stored. -/
def Ocean.time_step (o : Ocean) (starve_time : Int) : Ocean :=
  let acc := o.coordList.foldl (o.stepCell starve_time) (([] : OceanDict), o.rand)
  ⟨o.width, o.height, acc.1, [], none, none⟩

/-- The occupant sequence hashed by `Ocean.__hash__`:
`self[(x, y)].occupant for x in range(width) for y in range(height)`
(x outer, y inner — column-major). -/
def Ocean.hashSeq (o : Ocean) : List Occupant :=
  o.coordList.map fun xy => (o.getItem xy.1 xy.2).occupant

/-- `Ocean.__hash__` read path: serve the cached fingerprint if set,
else compute it from the occupant sequence. -/
def Ocean.hashValue (o : Ocean) : List Occupant :=
  o.hashCache.getD o.hashSeq

/-- `Ocean.__hash__` cache fill: after a call, `_hash` holds the value. -/
def Ocean.cacheHash (o : Ocean) : Ocean :=
  { o with hashCache := some o.hashValue }

/-- The pictographic glyph per occupant used by `Occupant.__str__`
(three pairwise-distinct strings; the exact glyphs are presentation
detail). -/
def occupantGlyph : Occupant → String
  | Occupant.EMPTY => "📘"
  | Occupant.FISH => "🐠"
  | Occupant.SHARK => "🦈"

/-- The text `Ocean.__str__` renders into its buffer: per row a leading
space, the glyphs of row `y` left to right, then a newline. -/
def Ocean.computeStr (o : Ocean) : String :=
  String.join ((List.range o.height.toNat).map fun y =>
    " " ++ String.join ((List.range o.width.toNat).map fun x =>
      occupantGlyph (o.getItem (x : Int) (y : Int)).occupant) ++ "\n")

/-- `Ocean.__str__` read path: serve the cached text if set, else render. -/
def Ocean.strValue (o : Ocean) : String :=
  o.strCache.getD o.computeStr

/-- `Ocean.__str__` cache fill: after a call, `_str` holds the text. -/
def Ocean.cacheStr (o : Ocean) : Ocean :=
  { o with strCache := some o.strValue }

/-- The occupant sequence in row-major scan order, as the spec's words
describe the fingerprint input (`y` outer, `x` inner) — the comparison
definition for the fingerprint claim. -/
def Ocean.rowMajorSeq (o : Ocean) : List Occupant :=
  (List.range o.height.toNat).flatMap fun y =>
    (List.range o.width.toNat).map fun x => (o.getItem (x : Int) (y : Int)).occupant

/-- The occupant sequence in column-major scan order (`x` outer, `y`
inner), written out directly for comparison with `Ocean.hashSeq`. -/
def Ocean.colMajorSeq (o : Ocean) : List Occupant :=
  (List.range o.width.toNat).flatMap fun x =>
    (List.range o.height.toNat).map fun y => (o.getItem (x : Int) (y : Int)).occupant

/-! ## The simulation driver (`simulate_ocean` in `src/main.py`) -/

/-- The annotations `simulate_ocean` attaches to published frames:
the empty string on ordinary frames, and the banner strings built by
`dead_str` / `kill_str` / `repeat_str` / `exc_str` (the repeat banner
carries the first-seen frame index; `exc` additionally carries the
traceback text). -/
inductive Msg : Type
  | blank
  | dead
  | killed
  | repeatAt (firstSeen : Nat)
  | exc
deriving DecidableEq, Repr

/-- An item put on the frame queue: `(ocean-or-None, text-or-None)`;
`(none, none)` is the clean-shutdown sentinel. -/
abbrev Frame : Type := Option Ocean × Option Msg

/-- The `seen` registry: fingerprint → list of frame counters, in
insertion order (initialised to `{hash(ocean): [0]}`). -/
abbrev SeenDict : Type := List (List Occupant × List Nat)

/-- The body of `simulate_ocean`'s `while next(forever())` loop.  Each
call models one evaluation of the loop condition followed (when the
condition neither stops nor raises) by one loop body:

* the condition increments `counter` and, when a positive `frames`
  limit is reached, the exhausted `forever()` generator makes `next()`
  raise `StopIteration`, which falls into the bare `except:` clause —
  the driver then puts `(ocean, exception banner)` and returns, never
  reaching the `else:` clause that puts the `(None, None)` sentinel;
* otherwise the body puts `(ocean, "")`, advances the ocean one
  `time_step`, and checks death / cancellation / repetition, each of
  which puts an annotated frame, breaks, and (via the `try`/`else`)
  puts the sentinel.

`fuel` bounds the recursion; any `fuel ≥ frames - counter` is exact for
a positive `frames` limit. -/
def simulate_loop (o : Ocean) (starve_time : Int) (frames : Int)
    (kill_repeat : Bool) (sigInt : Bool) :
    Nat → SeenDict → Nat → List Frame
  | 0, _, _ => []
  | fuel + 1, seen, counter =>
    let counter' := counter + 1
    if 0 < frames ∧ (counter' : Int) = frames then
      [(some o, some Msg.exc)]
    else
      (some o, some Msg.blank) ::
        (let o' := o.time_step starve_time
         if o'.is_dead then [(some o', some Msg.dead), (none, none)]
         else if sigInt then [(some o', some Msg.killed), (none, none)]
         else if kill_repeat then
           match List.lookup o'.hashValue seen with
           | some idxs => [(some o', some (Msg.repeatAt (idxs.headD 0))), (none, none)]
           | none =>
               simulate_loop o' starve_time frames kill_repeat sigInt fuel
                 (seen ++ [(o'.hashValue, [counter'])]) counter'
         else simulate_loop o' starve_time frames kill_repeat sigInt fuel seen counter')

/-- `simulate_ocean(ocean, starve_time, frames, kill_repeat, queue,
sigInt)`: the sequence of frames put on the queue, with the `seen`
registry seeded with the initial ocean's fingerprint at index 0 and the
counter at 0. -/
def simulate_ocean (o : Ocean) (starve_time : Int) (frames : Int)
    (kill_repeat : Bool) (sigInt : Bool) (fuel : Nat) : List Frame :=
  simulate_loop o starve_time frames kill_repeat sigInt fuel
    [(o.hashValue, [0])] 0

/-! ## Concrete example oceans used in witnesses and counterexamples -/

/-- A 1×1 ocean holding a single fish (it survives every step: its 8
wrapped neighbours are itself, so it never has any shark neighbour). -/
def fish1x1 : Ocean := (Ocean.init 1 1 []).add_fish 0 0

/-- A 2×2 ocean holding a single fish at `(1, 1)`. -/
def fishCorner2x2 : Ocean := (Ocean.init 2 2 []).add_fish 1 1

/-- A 2×2 ocean holding a single fish at `(1, 0)` — its column-major
and row-major occupant sequences differ. -/
def fishRight2x2 : Ocean := (Ocean.init 2 2 []).add_fish 1 0

/-- A 2×2 ocean with one shark of feeding 1 at `(0, 0)`. -/
def shark2x2a : Ocean := (Ocean.init 2 2 []).add_shark 0 0 1

/-- The same occupant layout as `shark2x2a` with feeding 2 instead. -/
def shark2x2b : Ocean := (Ocean.init 2 2 []).add_shark 0 0 2

/-- A 2×2 ocean with a shark (feeding 1) at `(0, 0)` and a fish at `(1, 0)`. -/
def sharkMeal2x2 : Ocean := ((Ocean.init 2 2 []).add_shark 0 0 1).add_fish 1 0

/-- A 3×3 ocean with a fish at `(1, 1)` flanked by two sharks. -/
def fishPrey3x3 : Ocean :=
  (((Ocean.init 3 3 []).add_fish 1 1).add_shark 0 0 2).add_shark 2 2 2

/-- Two fish at `(0, 0)` and `(1, 1)` of a 2×2 ocean, added in that order. -/
def fishPair2x2a : Ocean := ((Ocean.init 2 2 []).add_fish 0 0).add_fish 1 1

/-- The same two fish added in the opposite order: the stored mapping
lists its entries differently, but every lookup agrees with
`fishPair2x2a`. -/
def fishPair2x2b : Ocean := ((Ocean.init 2 2 []).add_fish 1 1).add_fish 0 0

end OceanSim

namespace OceanSim

/-- C8 (part): wrapped access — `get(W, 0) = get(0, 0)`,
`get(-1, 0) = get(W-1, 0)`, and reads/writes are invariant under
normalizing the coordinate modulo `(width, height)`. -/
theorem getItem_toroidal (o : Ocean) (hw : 0 < o.width) (hh : 0 < o.height)
    (x y : Int) :
    o.getItem o.width 0 = o.getItem 0 0 ∧
    o.getItem (-1) 0 = o.getItem (o.width - 1) 0 ∧
    o.getItem x y = o.getItem (x % o.width) (y % o.height) ∧
    ∀ c : Cell, o.setItem x y c = o.setItem (x % o.width) (y % o.height) c := by
  have hww : o.width % o.width = 0 := Int.emod_self
  have hxx : x % o.width % o.width = x % o.width :=
    Int.emod_emod_of_dvd x dvd_rfl
  have hyy : y % o.height % o.height = y % o.height :=
    Int.emod_emod_of_dvd y dvd_rfl
  have hneg : (-1 : Int) % o.width = (o.width - 1) % o.width := by
    have : (-1 : Int) + o.width * 1 = o.width - 1 := by ring
    calc (-1 : Int) % o.width = (-1 + o.width * 1) % o.width :=
          (Int.add_mul_emod_self_left (-1) o.width 1).symm
      _ = (o.width - 1) % o.width := by rw [this]
  refine ⟨?_, ?_, ?_, ?_⟩
  · simp [Ocean.getItem, Ocean.wrap_coords, hww]
  · simp [Ocean.getItem, Ocean.wrap_coords, hneg]
  · simp [Ocean.getItem, Ocean.wrap_coords, hxx, hyy]
  · intro c
    simp [Ocean.setItem, Ocean.wrap_coords, hxx, hyy]

/-- C8 witness: the wrap equalities evaluated on a concrete 5×4 ocean. -/
theorem getItem_toroidal_witness :
    (0 : Int) < 5 ∧ (0 : Int) < 4 ∧
      ((Ocean.init 5 4 []).getItem 5 0 = (Ocean.init 5 4 []).getItem 0 0 ∧
       (Ocean.init 5 4 []).getItem (-1) 0 = (Ocean.init 5 4 []).getItem (5 - 1) 0 ∧
       (Ocean.init 5 4 []).getItem 7 9 = (Ocean.init 5 4 []).getItem (7 % 5) (9 % 4) ∧
       ∀ c : Cell, (Ocean.init 5 4 []).setItem 7 9 c =
         (Ocean.init 5 4 []).setItem (7 % 5) (9 % 4) c) :=
  ⟨by decide, by decide, getItem_toroidal (Ocean.init 5 4 []) (by decide) (by decide) 7 9⟩

/-! ## Helper lemmas about the dict and the transition rule -/

/-- An entry of `dictInsert d k v` is the inserted pair or an old entry. -/
theorem mem_dictInsert {d : OceanDict} {k : Coordinates} {v : Cell}
    {p : Coordinates × Cell} (h : p ∈ dictInsert d k v) : p = (k, v) ∨ p ∈ d := by
  induction d with
  | nil => simpa [dictInsert] using h
  | cons q rest ih =>
    rcases q with ⟨k', v'⟩
    rw [dictInsert] at h
    split at h
    · rcases List.mem_cons.mp h with h' | h'
      · exact Or.inl h'
      · exact Or.inr (List.mem_cons_of_mem _ h')
    · rcases List.mem_cons.mp h with h' | h'
      · exact Or.inr (h' ▸ List.mem_cons_self _ _)
      · rcases ih h' with h'' | h''
        · exact Or.inl h''
        · exact Or.inr (List.mem_cons_of_mem _ h'')

/-- A non-`EMPTY_CELL` result of the spontaneous-generation check is a
real organism (occupant not `EMPTY`). -/
theorem spontaneous_occ (s : List ℚ) (st : Int)
    (h : (spontaneous_life_emergence s st).1 ≠ EMPTY_CELL) :
    (spontaneous_life_emergence s st).1.occupant ≠ Occupant.EMPTY := by
  simp only [spontaneous_life_emergence] at h ⊢
  split_ifs at h ⊢ <;> simp_all [EMPTY_CELL]

/-- A non-`EMPTY_CELL` result of `_apply_rules` is a real organism. -/
theorem apply_rules_occ (o : Ocean) (x y st : Int)
    (h : o.apply_rules x y st ≠ EMPTY_CELL) :
    (o.apply_rules x y st).occupant ≠ Occupant.EMPTY := by
  simp only [Ocean.apply_rules] at h ⊢
  split_ifs at h ⊢ <;> simp_all [EMPTY_CELL]

/-- The `time_step` loop only ever inserts organisms: folding
`stepCell` preserves "no stored entry has occupant `EMPTY`". -/
theorem stepCell_preserves (o : Ocean) (st : Int) (l : List (Int × Int)) :
    ∀ acc : OceanDict × List ℚ,
      (∀ p ∈ acc.1, p.2.occupant ≠ Occupant.EMPTY) →
      ∀ p ∈ (l.foldl (o.stepCell st) acc).1, p.2.occupant ≠ Occupant.EMPTY := by
  induction l with
  | nil => intro acc hacc; simpa using hacc
  | cons xy rest ih =>
    intro acc hacc
    refine ih _ ?_
    intro p hp
    simp only [Ocean.stepCell] at hp
    split_ifs at hp with h1 h2 h3 h4
    · rcases mem_dictInsert hp with h' | h'
      · rw [h']; exact spontaneous_occ acc.2 st h2
      · exact hacc p h'
    · rcases mem_dictInsert hp with h' | h'
      · rw [h']; exact apply_rules_occ o xy.1 xy.2 st h3
      · exact hacc p h'
    · exact hacc p hp
    · rcases mem_dictInsert hp with h' | h'
      · rw [h']; exact apply_rules_occ o xy.1 xy.2 st h4
      · exact hacc p h'
    · exact hacc p hp

/-- Sparsity of a `time_step` result: no stored `EMPTY` occupant. -/
theorem time_step_no_empty (o : Ocean) (st : Int) :
    ∀ p ∈ (o.time_step st).ocean, p.2.occupant ≠ Occupant.EMPTY := by
  intro p hp
  exact stepCell_preserves o st o.coordList ([], o.rand) (by simp) p
    (by simpa [Ocean.time_step] using hp)

/-- `_add` with a non-`EMPTY` occupant preserves sparsity. -/
theorem add_preserves_ne (o : Ocean) (x y feeding : Int) (occ : Occupant)
    (hocc : occ ≠ Occupant.EMPTY)
    (hne : ∀ p ∈ o.ocean, p.2.occupant ≠ Occupant.EMPTY) :
    ∀ p ∈ (o.add x y occ feeding).ocean, p.2.occupant ≠ Occupant.EMPTY := by
  intro p hp
  simp only [Ocean.add] at hp
  rcases mem_dictInsert hp with h' | h'
  · rw [h']; exact hocc
  · exact hne p h'

/-- For a grid whose stored keys are wrap-normalized and whose entries
are all organisms, `is_dead` agrees with "every coordinate reads
occupant `EMPTY`". -/
theorem dead_iff_all_empty (o : Ocean)
    (hkeys : ∀ p ∈ o.ocean, ((p.1.1 % o.width, p.1.2 % o.height) : Coordinates) = p.1)
    (hne : ∀ p ∈ o.ocean, p.2.occupant ≠ Occupant.EMPTY) :
    (o.is_dead = true ↔ ∀ a b : Int, (o.getItem a b).occupant = Occupant.EMPTY) := by
  constructor
  · intro hd a b
    have hnil : o.ocean = [] :=
      List.length_eq_zero.mp (by simpa [Ocean.is_dead, Ocean.len] using hd)
    simp [Ocean.getItem, dictGet, hnil, EMPTY_CELL]
  · intro hall
    rcases hq : o.ocean with _ | ⟨q, rest⟩
    · simp [Ocean.is_dead, Ocean.len, hq]
    · exfalso
      have hmem : q ∈ o.ocean := hq ▸ List.mem_cons_self _ _
      have hkey := hkeys q hmem
      have hget : o.getItem q.1.1 q.1.2 = q.2 := by
        simp [Ocean.getItem, Ocean.wrap_coords, hkey, dictGet, hq, List.lookup]
      exact hne q hmem (by rw [← hget]; exact hall q.1.1 q.1.2)

/-- `__hash__` enumerates occupants x-outer/y-inner: column-major. -/
theorem hash_eq_colmajor (o : Ocean) : o.hashSeq = o.colMajorSeq := by
  simp [Ocean.hashSeq, Ocean.colMajorSeq, Ocean.coordList, List.map_flatMap,
    List.map_map]

/-- The scan order depends only on the dimensions. -/
theorem coordList_congr (o1 o2 : Ocean) (hw : o1.width = o2.width)
    (hh : o1.height = o2.height) : o1.coordList = o2.coordList := by
  simp [Ocean.coordList, hw, hh]

/-- The fingerprint input sequence depends only on the dimensions and
the occupant (not feeding) read at each scanned coordinate. -/
theorem hashSeq_congr (o1 o2 : Ocean) (hw : o1.width = o2.width)
    (hh : o1.height = o2.height)
    (hocc : ∀ xy ∈ o1.coordList,
      (o1.getItem xy.1 xy.2).occupant = (o2.getItem xy.1 xy.2).occupant) :
    o1.hashSeq = o2.hashSeq := by
  have hcl : o1.coordList = o2.coordList := coordList_congr o1 o2 hw hh
  simp only [Ocean.hashSeq, hcl]
  exact List.map_congr_left fun xy hxy => hocc xy (hcl ▸ hxy)

/-- Reads agree on two grids of equal dimensions whose stored mappings
agree extensionally. -/
theorem getItem_congr (o1 o2 : Ocean) (hw : o1.width = o2.width)
    (hh : o1.height = o2.height)
    (hcell : ∀ c : Coordinates, dictGet o1.ocean c = dictGet o2.ocean c)
    (x y : Int) : o1.getItem x y = o2.getItem x y := by
  simp [Ocean.getItem, Ocean.wrap_coords, hw, hh, hcell]

/-- Neighbour lists agree under the hypotheses of `getItem_congr`. -/
theorem neighbours_congr (o1 o2 : Ocean) (hw : o1.width = o2.width)
    (hh : o1.height = o2.height)
    (hcell : ∀ c : Coordinates, dictGet o1.ocean c = dictGet o2.ocean c)
    (x y : Int) : o1.neighbours x y = o2.neighbours x y := by
  unfold Ocean.neighbours
  exact List.map_congr_left fun p _ => getItem_congr o1 o2 hw hh hcell _ _

/-- The transition rule consults nothing beyond the stored mapping and
the dimensions. -/
theorem apply_rules_congr (o1 o2 : Ocean) (hw : o1.width = o2.width)
    (hh : o1.height = o2.height)
    (hcell : ∀ c : Coordinates, dictGet o1.ocean c = dictGet o2.ocean c)
    (x y st : Int) : o1.apply_rules x y st = o2.apply_rules x y st := by
  unfold Ocean.apply_rules
  rw [hcell (x, y), neighbours_congr o1 o2 hw hh hcell x y]

/-- One loop iteration of `time_step` consults only the source mapping,
the dimensions, and the threaded stream state. -/
theorem stepCell_congr (o1 o2 : Ocean) (hw : o1.width = o2.width)
    (hh : o1.height = o2.height)
    (hcell : ∀ c : Coordinates, dictGet o1.ocean c = dictGet o2.ocean c)
    (st : Int) (acc : OceanDict × List ℚ) (xy : Int × Int) :
    o1.stepCell st acc xy = o2.stepCell st acc xy := by
  unfold Ocean.stepCell
  rw [getItem_congr o1 o2 hw hh hcell xy.1 xy.2,
    apply_rules_congr o1 o2 hw hh hcell xy.1 xy.2 st]

/-- Folding pointwise-equal step functions gives equal results. -/
theorem foldl_hcong {α β : Type} (f g : β → α → β) (l : List α) (b : β)
    (h : ∀ b a, f b a = g b a) : l.foldl f b = l.foldl g b := by
  induction l generalizing b with
  | nil => rfl
  | cons a l ih => rw [List.foldl_cons, List.foldl_cons, h]; exact ih _

/-- Two-run equality of `time_step` on grids with equal dimensions,
extensionally equal mappings and equal random streams. -/
theorem time_step_congr (o1 o2 : Ocean) (st : Int) (hw : o1.width = o2.width)
    (hh : o1.height = o2.height) (hr : o1.rand = o2.rand)
    (hcell : ∀ c : Coordinates, dictGet o1.ocean c = dictGet o2.ocean c) :
    o1.time_step st = o2.time_step st := by
  unfold Ocean.time_step
  rw [coordList_congr o1 o2 hw hh, hw, hh, hr,
    foldl_hcong (o1.stepCell st) (o2.stepCell st) o2.coordList ([], o2.rand)
      (fun b a => stepCell_congr o1 o2 hw hh hcell st b a)]

/-- On a 1-wide and 1-tall grid every offset wraps onto the cell itself. -/
theorem neighbours_1x1 (o : Ocean) (x y : Int)
    (hw : o.width = 1) (hh : o.height = 1) :
    o.neighbours x y = List.replicate 8 (o.getItem x y) := by
  have key : ∀ a b : Int, o.getItem a b = o.getItem x y := by
    intro a b
    simp [Ocean.getItem, Ocean.wrap_coords, hw, hh, Int.emod_one]
  simp only [Ocean.neighbours, mooreOffsets, List.map_cons, List.map_nil, key]
  rfl

/-- With `width = 1` the offset `(1, 0)` wraps back onto the centre
cell, so a cell occurs in its own neighbour list. -/
theorem self_neighbour_w1 (o : Ocean) (x y : Int) (hw : o.width = 1) :
    o.getItem x y ∈ o.neighbours x y := by
  have key : o.getItem (x + 1) (y + 0) = o.getItem x y := by
    simp [Ocean.getItem, Ocean.wrap_coords, hw, Int.emod_one]
  exact List.mem_map.mpr ⟨(1, 0), by simp [mooreOffsets], key⟩

/-- With `height = 1` the offset `(0, 1)` wraps back onto the centre
cell, so a cell occurs in its own neighbour list. -/
theorem self_neighbour_h1 (o : Ocean) (x y : Int) (hh : o.height = 1) :
    o.getItem x y ∈ o.neighbours x y := by
  have key : o.getItem (x + 0) (y + 1) = o.getItem x y := by
    simp [Ocean.getItem, Ocean.wrap_coords, hh, Int.emod_one]
  exact List.mem_map.mpr ⟨(0, 1), by simp [mooreOffsets], key⟩

/-! ## The claims -/

/-- C1: for a `Shark` source cell the rule is eat-before-starve: the
new feeding is `starve_time` when the fish-neighbour count is nonzero
and `feeding - 1` otherwise; the cell becomes a `Shark` with the new
feeding when it is positive and the canonical `EMPTY_CELL` otherwise,
and the result never falls through into the crowding rule (it is
always a shark or empty); in particular a shark that sees a fish with
positive `starve_time` always survives, whatever its prior feeding. -/
theorem shark_rule (o : Ocean) (x y starve_time : Int)
    (h : (dictGet o.ocean (x, y)).occupant = Occupant.SHARK) :
    (o.apply_rules x y starve_time =
      (if 0 < (if Ocean.counts (o.neighbours x y) Occupant.FISH ≠ 0 then starve_time
               else (dictGet o.ocean (x, y)).feeding - 1) then
        (⟨Occupant.SHARK,
          if Ocean.counts (o.neighbours x y) Occupant.FISH ≠ 0 then starve_time
          else (dictGet o.ocean (x, y)).feeding - 1⟩ : Cell)
       else EMPTY_CELL)) ∧
    (0 < Ocean.counts (o.neighbours x y) Occupant.FISH → 0 < starve_time →
      o.apply_rules x y starve_time = ⟨Occupant.SHARK, starve_time⟩) ∧
    (o.apply_rules x y starve_time = EMPTY_CELL ∨
      (o.apply_rules x y starve_time).occupant = Occupant.SHARK) := by
  refine ⟨?_, ?_, ?_⟩
  · simp [Ocean.apply_rules, h]
  · intro hf hst
    simp [Ocean.apply_rules, h, Nat.pos_iff_ne_zero.mp hf, hst]
  · simp only [Ocean.apply_rules, h]
    split_ifs <;> simp [EMPTY_CELL]

/-- C1 witness: a 2×2 ocean with a feeding-1 shark at `(0, 0)` and a
fish at `(1, 0)`; the shark eats and resets to `feeding = 3`. -/
theorem shark_rule_witness :
    (dictGet sharkMeal2x2.ocean (0, 0)).occupant = Occupant.SHARK ∧
    sharkMeal2x2.apply_rules 0 0 3 = ⟨Occupant.SHARK, 3⟩ :=
  ⟨by decide, (shark_rule sharkMeal2x2 0 0 3 (by decide)).2.1 (by decide) (by decide)⟩

/-- C2: the frame-count limit never produces the `(None, None)`
sentinel.  When the tick counter reaches a positive `frames` limit,
`next()` on the freshly exhausted `forever()` generator raises
`StopIteration` inside the `while` condition; the bare `except:`
catches it and puts an exception-annotated frame carrying the
last-known grid, and the `else:` clause holding the sentinel `put` is
skipped.  Evaluated on a 1×1 single-fish ocean with `frames = 2` (one
ordinary frame, then the exception frame) and with `frames = 1` (the
exception frame alone, before any ordinary frame). -/
theorem driver_frame_limit_exception :
    simulate_ocean fish1x1 3 2 false false 2 =
      [(some fish1x1, some Msg.blank), (some fish1x1, some Msg.exc)] ∧
    ((none, none) : Frame) ∉ simulate_ocean fish1x1 3 2 false false 2 ∧
    simulate_ocean fish1x1 3 1 false false 1 = [(some fish1x1, some Msg.exc)] := by
  refine ⟨by decide, by decide, by decide⟩

/-- C3: the spontaneous-generation check, evaluated on concrete draws.
A first draw of `0.99` lies in the top 2% of `[0, 1]` (as the second
conjunct records), yet the code keeps the cell empty, because
`_spontaneous_life_emergence` returns `EMPTY_CELL` for every first
draw `≤ 0.999` — the check fires with probability 0.1%, not the 2%
stated by the spec and by the source's own comment.  The remaining
conjuncts confirm the shape of the firing branch: a second draw
`≤ 0.2` yields `Cell(SHARK, starve_time)`, a larger one `Cell(FISH)`. -/
theorem spontaneous_rate_evaluated :
    spontaneous_life_emergence [99 / 100] 3 = (EMPTY_CELL, []) ∧
    (49 / 50 : ℚ) < 99 / 100 ∧
    spontaneous_life_emergence [9999 / 10000, 1 / 10] 3 = (⟨Occupant.SHARK, 3⟩, []) ∧
    spontaneous_life_emergence [9999 / 10000, 3 / 10] 3 = (⟨Occupant.FISH, 0⟩, []) := by
  refine ⟨?_, by norm_num, ?_, ?_⟩ <;> norm_num [spontaneous_life_emergence, randDraw]

/-- C4 counterexample: the fingerprint input is not the row-major
occupant sequence.  On the 2×2 grid with one fish at `(1, 0)` the
sequence `__hash__` hashes (x outer, y inner) differs from the
row-major sequence. -/
theorem hash_not_row_major :
    fishRight2x2.hashSeq ≠ fishRight2x2.rowMajorSeq ∧
    fishRight2x2.hashSeq = fishRight2x2.colMajorSeq := by
  refine ⟨by decide, by decide⟩

/-- C4 amended: the fingerprint hashes the occupant sequence taken in
column-major scan order (x outer, y inner), and it ignores feeding
counters — two grids of equal dimensions whose scanned coordinates
carry the same occupants have equal fingerprint inputs. -/
theorem hash_fingerprint_amended (o1 o2 : Ocean) (hw : o1.width = o2.width)
    (hh : o1.height = o2.height)
    (hocc : ∀ xy ∈ o1.coordList,
      (o1.getItem xy.1 xy.2).occupant = (o2.getItem xy.1 xy.2).occupant) :
    (∀ o : Ocean, o.hashSeq = o.colMajorSeq) ∧ o1.hashSeq = o2.hashSeq :=
  ⟨hash_eq_colmajor, hashSeq_congr o1 o2 hw hh hocc⟩

/-- C4 witness: two 2×2 grids whose sharks differ only in feeding
(1 vs 2) have equal fingerprint inputs. -/
theorem hash_fingerprint_amended_witness :
    shark2x2a.width = shark2x2b.width ∧ shark2x2a.height = shark2x2b.height ∧
    ((∀ o : Ocean, o.hashSeq = o.colMajorSeq) ∧
      shark2x2a.hashSeq = shark2x2b.hashSeq) :=
  ⟨by decide, by decide,
    hash_fingerprint_amended shark2x2a shark2x2b (by decide) (by decide) (by decide)⟩

/-- C5 counterexample: `__setitem__` performs no emptiness check, so
the canonical empty cell *can* be inserted into the stored mapping;
the resulting grid stores one `EMPTY`-occupant entry and is reported
not-dead although it holds no organism. -/
theorem setItem_inserts_empty_cell :
    ((Ocean.init 2 2 []).setItem 0 0 EMPTY_CELL).ocean =
      [(((0 : Int), (0 : Int)), EMPTY_CELL)] ∧
    ((Ocean.init 2 2 []).setItem 0 0 EMPTY_CELL).is_dead = false ∧
    EMPTY_CELL.occupant = Occupant.EMPTY := by
  refine ⟨by decide, by decide, by decide⟩

/-- C5 amended: the sparsity invariant holds for the write paths the
simulation uses — any `time_step` result stores no `EMPTY`-occupant
entry, and `add_fish` / `add_shark` never insert the canonical empty
cell — and for any grid whose stored keys are wrap-normalized and
whose entries are all organisms, `is_dead` is equivalent to every
coordinate reading occupant `EMPTY`; only raw `set` can break this by
inserting the canonical empty cell. -/
theorem sparsity_amended (o : Ocean) (st x y : Int)
    (hkeys : ∀ p ∈ o.ocean, ((p.1.1 % o.width, p.1.2 % o.height) : Coordinates) = p.1)
    (hne : ∀ p ∈ o.ocean, p.2.occupant ≠ Occupant.EMPTY) :
    (∀ p ∈ (o.time_step st).ocean, p.2.occupant ≠ Occupant.EMPTY) ∧
    (∀ p ∈ (o.add_fish x y).ocean, p.2.occupant ≠ Occupant.EMPTY) ∧
    (∀ p ∈ (o.add_shark x y st).ocean, p.2.occupant ≠ Occupant.EMPTY) ∧
    (o.is_dead = true ↔ ∀ a b : Int, (o.getItem a b).occupant = Occupant.EMPTY) :=
  ⟨time_step_no_empty o st,
   add_preserves_ne o x y 0 Occupant.FISH (by simp) hne,
   add_preserves_ne o x y st Occupant.SHARK (by simp) hne,
   dead_iff_all_empty o hkeys hne⟩

/-- C5 witness: the amended sparsity facts at the 1×1 single-fish ocean. -/
theorem sparsity_amended_witness :
    (∀ p ∈ fish1x1.ocean,
      ((p.1.1 % fish1x1.width, p.1.2 % fish1x1.height) : Coordinates) = p.1) ∧
    (∀ p ∈ fish1x1.ocean, p.2.occupant ≠ Occupant.EMPTY) ∧
    ((∀ p ∈ (fish1x1.time_step 3).ocean, p.2.occupant ≠ Occupant.EMPTY) ∧
     (∀ p ∈ (fish1x1.add_fish 0 0).ocean, p.2.occupant ≠ Occupant.EMPTY) ∧
     (∀ p ∈ (fish1x1.add_shark 0 0 3).ocean, p.2.occupant ≠ Occupant.EMPTY) ∧
     (fish1x1.is_dead = true ↔
        ∀ a b : Int, (fish1x1.getItem a b).occupant = Occupant.EMPTY)) :=
  ⟨by decide, by decide, sparsity_amended fish1x1 3 0 0 (by decide) (by decide)⟩

/-- C6 counterexample: writes are served stale.  On a 1×1 single-fish
ocean with both caches filled, `set` clears only the fingerprint
cache: the rendered-text cache survives and a later rendering serves
the pre-write text although the contents changed; `add_fish` /
`add_shark` clear neither cache, so even the fingerprint is served
stale after them. -/
theorem caches_stale_after_write :
    ((fish1x1.cacheStr.cacheHash.setItem 0 0 ⟨Occupant.SHARK, 2⟩).strValue =
      fish1x1.computeStr) ∧
    ((fish1x1.cacheStr.cacheHash.setItem 0 0 ⟨Occupant.SHARK, 2⟩).computeStr ≠
      fish1x1.computeStr) ∧
    ((fish1x1.cacheStr.cacheHash.add_shark 0 0 3).hashValue = fish1x1.hashSeq) ∧
    ((fish1x1.cacheStr.cacheHash.add_shark 0 0 3).hashSeq ≠ fish1x1.hashSeq) := by
  refine ⟨by decide, by decide, by decide, by decide⟩

/-- C6 amended: per write path, which caches are invalidated — `set`
clears the fingerprint cache but leaves the rendered-text cache in
place, while `_add` (hence `add_fish` and `add_shark`) leaves both
caches untouched. -/
theorem cache_invalidation_amended (o : Ocean) (x y feeding : Int) (c : Cell)
    (occupant : Occupant) :
    ((o.setItem x y c).hashCache = none ∧ (o.setItem x y c).strCache = o.strCache) ∧
    ((o.add x y occupant feeding).hashCache = o.hashCache ∧
      (o.add x y occupant feeding).strCache = o.strCache) ∧
    ((o.add_fish x y).hashCache = o.hashCache ∧
      (o.add_fish x y).strCache = o.strCache) ∧
    ((o.add_shark x y feeding).hashCache = o.hashCache ∧
      (o.add_shark x y feeding).strCache = o.strCache) := by
  simp [Ocean.setItem, Ocean.add, Ocean.add_fish, Ocean.add_shark]

/-- C7: for a `Fish` source cell, more than one shark neighbour turns
the cell into a newborn `Shark` with `feeding = starve_time`; with at
most one shark neighbour the fish survives as `Fish`, in both cases
regardless of the fish-neighbour count. -/
theorem fish_rule (o : Ocean) (x y starve_time : Int)
    (h : (dictGet o.ocean (x, y)).occupant = Occupant.FISH) :
    (1 < Ocean.counts (o.neighbours x y) Occupant.SHARK →
      o.apply_rules x y starve_time = ⟨Occupant.SHARK, starve_time⟩) ∧
    (Ocean.counts (o.neighbours x y) Occupant.SHARK ≤ 1 →
      o.apply_rules x y starve_time = ⟨Occupant.FISH, 0⟩) := by
  constructor
  · intro hs
    simp [Ocean.apply_rules, h, hs]
  · intro hs
    simp [Ocean.apply_rules, h, Nat.not_lt.mpr hs]

/-- C7 witness: a fish at `(1, 1)` of a 3×3 ocean with exactly two
shark neighbours is eaten and becomes a `Shark` with `feeding = 3`. -/
theorem fish_rule_witness :
    (dictGet fishPrey3x3.ocean (1, 1)).occupant = Occupant.FISH ∧
    fishPrey3x3.apply_rules 1 1 3 = ⟨Occupant.SHARK, 3⟩ :=
  ⟨by decide, (fish_rule fishPrey3x3 1 1 3 (by decide)).1 (by decide)⟩

/-- C9: `time_step` is deterministic across two runs — two grids with
equal dimensions, extensionally identical stored mappings (occupants
*and* feedings), and identical random streams produce successors with
identical occupant layouts (in fact identical grids, since all draws
come from the source grid's own stream and nothing else is consulted). -/
theorem time_step_deterministic (o1 o2 : Ocean) (st : Int)
    (hw : o1.width = o2.width) (hh : o1.height = o2.height)
    (hr : o1.rand = o2.rand)
    (hcell : ∀ c : Coordinates, dictGet o1.ocean c = dictGet o2.ocean c) :
    ∀ x y : Int,
      ((o1.time_step st).getItem x y).occupant =
        ((o2.time_step st).getItem x y).occupant := by
  intro x y
  rw [time_step_congr o1 o2 st hw hh hr hcell]

/-- C9 witness: the two fish of `fishPair2x2a` / `fishPair2x2b` were
added in opposite orders, so the stored mappings are different lists,
yet every lookup agrees; the one-step successors agree too. -/
theorem time_step_deterministic_witness :
    fishPair2x2a.ocean ≠ fishPair2x2b.ocean ∧
    (∀ c : Coordinates, dictGet fishPair2x2a.ocean c = dictGet fishPair2x2b.ocean c) ∧
    ((fishPair2x2a.time_step 3).getItem 0 0).occupant =
      ((fishPair2x2b.time_step 3).getItem 0 0).occupant := by
  have hcell : ∀ c : Coordinates,
      dictGet fishPair2x2a.ocean c = dictGet fishPair2x2b.ocean c := by
    intro c
    by_cases h0 : c = ((0 : Int), (0 : Int))
    · subst h0; decide
    · by_cases h1 : c = ((1 : Int), (1 : Int))
      · subst h1; decide
      · have b0 : (c == (0 : Coordinates)) = false :=
          beq_eq_false_iff_ne.mpr (by simpa [Prod.ext_iff] using h0)
        have b1 : (c == (1 : Coordinates)) = false :=
          beq_eq_false_iff_ne.mpr (by simpa [Prod.ext_iff] using h1)
        simp [fishPair2x2a, fishPair2x2b, Ocean.add_fish, Ocean.add,
          Ocean.init, Ocean.wrap_coords, dictInsert, dictGet, List.lookup, b0, b1]
  exact ⟨by decide, hcell,
    time_step_deterministic fishPair2x2a fishPair2x2b 3 rfl rfl rfl hcell 0 0⟩

/-- C10: neighbour counting is a multiset count over the 8 wrapped
Moore offsets, not over distinct coordinates: with `width = 1` or
`height = 1` a cell occurs in its own neighbour list (only the offset
`(0, 0)` is excluded, not the centre coordinate); on a 1×1 grid the
neighbour list is 8 copies of the cell itself; and on the 2×2 grid
with a single fish at `(1, 1)`, the fish-neighbour count of `(0, 0)`
is 4 — the one stored fish counted once per wrapped offset. -/
theorem neighbour_multiset_counting :
    (∀ (o : Ocean) (x y : Int), o.width = 1 → o.getItem x y ∈ o.neighbours x y) ∧
    (∀ (o : Ocean) (x y : Int), o.height = 1 → o.getItem x y ∈ o.neighbours x y) ∧
    (∀ (o : Ocean) (x y : Int), o.width = 1 → o.height = 1 →
      o.neighbours x y = List.replicate 8 (o.getItem x y)) ∧
    Ocean.counts (fishCorner2x2.neighbours 0 0) Occupant.FISH = 4 :=
  ⟨fun o x y hw => self_neighbour_w1 o x y hw,
   fun o x y hh => self_neighbour_h1 o x y hh,
   fun o x y hw hh => neighbours_1x1 o x y hw hh,
   by decide⟩

/-- C10 witness: on the 1×1 single-fish ocean the cell is its own
eightfold neighbourhood. -/
theorem neighbour_multiset_counting_witness :
    fish1x1.width = 1 ∧ fish1x1.height = 1 ∧
    fish1x1.neighbours 0 0 = List.replicate 8 (fish1x1.getItem 0 0) :=
  ⟨by decide, by decide,
    neighbour_multiset_counting.2.2.1 fish1x1 0 0 (by decide) (by decide)⟩

end OceanSim
